import Mathlib

/-!
Formal model of the query-result cache (`tools/web_search.py`) and of the
persistent agent memory store (`tools/memory_tool.py`) of the
Multi Agent Systems repository, with proofs of the specified properties.

Modelling conventions:
* JSON values (the data read from and written to the cache and snapshot
  files) are modelled by the inductive type `JsonVal`; a parsed JSON
  `null` is identified with Python `None`, exactly as `json.load` does.
* Timestamps (`time.time()`) are modelled as integers; a single `now`
  parameter stands for the clock reads performed inside one operation.
* Files are modelled as explicit state: the cache directory as a map from
  query to the parsed content of its cache file (the cache path
  `search_<md5(query)>.json` is a fixed deterministic function of the
  query, so keying the directory by the query itself is faithful for
  same-query put/get sequences), and the memory snapshot file as a JSON
  document.
-/

/-- JSON values as parsed by Python: dict / list / str / number / bool /
`None`.  JSON `null` parses to Python `None` and is `JsonVal.null` here. -/
inductive JsonVal where
  | null : JsonVal
  | bool : Bool → JsonVal
  | num : Int → JsonVal
  | str : String → JsonVal
  | arr : List JsonVal → JsonVal
  | obj : List (String × JsonVal) → JsonVal

/-- Python truthiness (`if x:`) of a parsed JSON value. -/
def JsonVal.truthy : JsonVal → Bool
  | .null => false
  | .bool b => b
  | .num n => n != 0
  | .str s => s != ""
  | .arr xs => !xs.isEmpty
  | .obj fs => !fs.isEmpty

/-- `d.get(key, default)` on a parsed JSON object (insertion-ordered
association list with unique keys, as Python dicts are). -/
def jsonGet : List (String × JsonVal) → String → JsonVal → JsonVal
  | [], _, d => d
  | (k, v) :: rest, key, d => if k = key then v else jsonGet rest key d

/-- Python `str(x)` for the scalar values this code interpolates into its
output strings (the container cases never reach an interpolation site on
data written by this tool and are not modelled further). -/
def JsonVal.pyStr : JsonVal → String
  | .str s => s
  | .null => "None"
  | .bool true => "True"
  | .bool false => "False"
  | .num n => toString n
  | .arr _ => ""
  | .obj _ => ""

namespace WebSearchTool

/-- Parsed content of one cache file, as written by `_cache_result`: a JSON
object with keys `timestamp`, `query`, `results`.  A field is `none` when
the key is absent from the object (then `dict.get` yields Python `None`,
respectively the supplied default). -/
structure CacheFileData where
  timestamp : Option Int
  query : Option String
  results : Option JsonVal

/-- The cache directory: each query is mapped to the parsed content of its
cache file, or `none` when that file does not exist. -/
def CacheStore := String → Option CacheFileData

/-- `WebSearchTool._get_cached_result`: if the cache file exists and
`time.time() - cached_data.get('timestamp', 0) < 86400`, return
`cached_data.get('results')`, else return Python `None` (`JsonVal.null`;
a present-but-`null` or missing `results` key yields the same `None`). -/
def get_cached_result (store : CacheStore) (now : Int) (q : String) : JsonVal :=
  match store q with
  | none => .null
  | some cached_data =>
      let cache_time := cached_data.timestamp.getD 0
      if now - cache_time < 86400 then cached_data.results.getD .null else .null

/-- `WebSearchTool._cache_result`: unconditionally (over)write the cache
file for the query with `{'timestamp': now, 'query': query, 'results': results}`. -/
def cache_result (store : CacheStore) (now : Int) (q : String) (results : JsonVal) :
    CacheStore :=
  fun k => if k = q then some ⟨some now, some q, some results⟩ else store k

/-- Python `query.replace(' ', '+')` (a single-character pattern, hence a
character map). -/
def plusEncode (q : String) : String :=
  String.mk (q.data.map (fun c => if c = ' ' then '+' else c))

/-- The simulated search results literal built inside `WebSearchTool.search`. -/
def simulated_results (q : String) : JsonVal :=
  .obj [("items", .arr [
    .obj [("title", .str ("Example Result 1 for " ++ q)),
          ("snippet", .str ("This is a detailed information about " ++ q
            ++ " with relevant facts and figures.")),
          ("link", .str ("https://example.com/1?q=" ++ plusEncode q))],
    .obj [("title", .str ("Example Result 2 for " ++ q)),
          ("snippet", .str ("Additional information about " ++ q
            ++ " including recent developments and analysis.")),
          ("link", .str ("https://example.com/2?q=" ++ plusEncode q))],
    .obj [("title", .str ("Example Result 3 for " ++ q)),
          ("snippet", .str ("Comprehensive guide to " ++ q
            ++ " with step-by-step instructions and explanations.")),
          ("link", .str ("https://example.com/3?q=" ++ plusEncode q))]])]

/-- One iteration of the formatting loop of `_format_results`
(`enumerate(items, 1)`): titles, snippets and links are read with
`item.get(..., default)`. -/
def format_item (i : Nat) (item : JsonVal) : String :=
  let fs := match item with | .obj fs => fs | _ => []
  "Result " ++ toString i ++ ":\n"
    ++ "Title: " ++ (jsonGet fs "title" (.str "No title")).pyStr ++ "\n"
    ++ "Summary: " ++ (jsonGet fs "snippet" (.str "No summary available")).pyStr ++ "\n"
    ++ "URL: " ++ (jsonGet fs "link" (.str "No link available")).pyStr ++ "\n\n"

/-- `WebSearchTool._format_results`: `items = results.get("items", [])`;
an empty (falsy) `items` yields the no-results message, otherwise the
enumerated listing.  (A truthy non-list `items` would raise in Python;
it never occurs on data written by this tool and is modelled as "".) -/
def format_results (results : JsonVal) (q : String) : String :=
  let fs := match results with | .obj fs => fs | _ => []
  match jsonGet fs "items" (.arr []) with
  | .arr [] => "No results found for: " ++ q
  | .arr items =>
      "Search results for \x27" ++ q ++ "\x27:\n\n"
        ++ String.join ((items.enumFrom 1).map (fun p => format_item p.1 p.2))
  | v => if v.truthy then "" else "No results found for: " ++ q

/-- `WebSearchTool.search`: use the cached results if `_get_cached_result`
returned a truthy value, else recompute the simulated results, cache them
and format them.  Returns the reply text and the cache directory after the
call (the `except` branch is unreachable: every modelled step is total). -/
def search (store : CacheStore) (now : Int) (q : String) : String × CacheStore :=
  let cached_results := get_cached_result store now q
  if cached_results.truthy then
    (format_results cached_results q, store)
  else
    let results := simulated_results q
    (format_results results q, cache_result store now q results)

end WebSearchTool

namespace MemoryTool

/-- One stored fact or reflection: `{"content": ..., "timestamp": ...}`. -/
structure FactRec where
  content : String
  timestamp : Int
  deriving DecidableEq

/-- One entity record:
`{"information": [...], "first_mentioned": ..., "last_updated": ...}`. -/
structure EntityRec where
  information : List String
  first_mentioned : Int
  last_updated : Int
  deriving DecidableEq

/-- One task-history record: `{"status": ..., "details": ..., "timestamp": ...}`. -/
structure HistoryRec where
  status : String
  details : String
  timestamp : Int
  deriving DecidableEq

/-- One task-log entry:
`{"status": ..., "history": [...], "created": ..., "last_updated": ...}`. -/
structure TaskRec where
  status : String
  history : List HistoryRec
  created : Int
  last_updated : Int
  deriving DecidableEq

/-- Key lookup `d[k]` / `k in d` in a Python dict, modelled as an
insertion-ordered association list with unique keys. -/
def dictFind {β : Type} : List (String × β) → String → Option β
  | [], _ => none
  | (k, v) :: rest, key => if k = key then some v else dictFind rest key

/-- Assignment `d[k] = v` on a Python dict: overwrite in place when the key
exists, else append (Python dicts preserve insertion order). -/
def dictSet {β : Type} : List (String × β) → String → β → List (String × β)
  | [], key, v => [(key, v)]
  | (k, w) :: rest, key, v =>
      if k = key then (k, v) :: rest else (k, w) :: dictSet rest key v

/-- The in-memory store: the dict built by `_initialize_memory` (the
`conversations` collection is present in the structure but never written
by any operation of the class). -/
structure Memory where
  facts : List FactRec
  entities : List (String × EntityRec)
  conversations : List JsonVal
  tasks : List (String × TaskRec)
  reflections : List FactRec
  last_updated : Int

/-- `MemoryTool._initialize_memory`, before the save it performs. -/
def initialize_memory (now : Int) : Memory :=
  { facts := [], entities := [], conversations := [], tasks := []
    reflections := [], last_updated := now }

/-- JSON encoding of one fact/reflection record. -/
def factToJson (f : FactRec) : JsonVal :=
  .obj [("content", .str f.content), ("timestamp", .num f.timestamp)]

/-- JSON encoding of one entity record. -/
def entityToJson (e : EntityRec) : JsonVal :=
  .obj [("information", .arr (e.information.map JsonVal.str)),
        ("first_mentioned", .num e.first_mentioned),
        ("last_updated", .num e.last_updated)]

/-- JSON encoding of one task-history record. -/
def historyToJson (h : HistoryRec) : JsonVal :=
  .obj [("status", .str h.status), ("details", .str h.details),
        ("timestamp", .num h.timestamp)]

/-- JSON encoding of one task-log entry. -/
def taskToJson (t : TaskRec) : JsonVal :=
  .obj [("status", .str t.status), ("history", .arr (t.history.map historyToJson)),
        ("created", .num t.created), ("last_updated", .num t.last_updated)]

/-- `json.dump` of the memory dict: the single structured snapshot document
written by `_save_memory`, holding the four collections (plus the unused
`conversations` list) and the store-level `last_updated` timestamp. -/
def memToJson (m : Memory) : JsonVal :=
  .obj [("facts", .arr (m.facts.map factToJson)),
        ("entities", .obj (m.entities.map (fun p => (p.1, entityToJson p.2)))),
        ("conversations", .arr m.conversations),
        ("tasks", .obj (m.tasks.map (fun p => (p.1, taskToJson p.2)))),
        ("reflections", .arr (m.reflections.map factToJson)),
        ("last_updated", .num m.last_updated)]

/-- Decode a JSON list elementwise. -/
def decodeList {α : Type} (dec : JsonVal → Option α) : List JsonVal → Option (List α)
  | [] => some []
  | j :: rest =>
      match dec j, decodeList dec rest with
      | some a, some as => some (a :: as)
      | _, _ => none

/-- Decode the fields of a JSON object elementwise, keeping the keys. -/
def decodePairs {α : Type} (dec : JsonVal → Option α) :
    List (String × JsonVal) → Option (List (String × α))
  | [] => some []
  | (k, j) :: rest =>
      match dec j, decodePairs dec rest with
      | some a, some as => some ((k, a) :: as)
      | _, _ => none

/-- Reader inverting `factToJson`. -/
def factFromJson : JsonVal → Option FactRec
  | .obj [("content", .str c), ("timestamp", .num t)] => some ⟨c, t⟩
  | _ => none

/-- Reader for a JSON string. -/
def strFromJson : JsonVal → Option String
  | .str s => some s
  | _ => none

/-- Reader inverting `entityToJson`. -/
def entityFromJson : JsonVal → Option EntityRec
  | .obj [("information", .arr infos), ("first_mentioned", .num fm),
          ("last_updated", .num lu)] =>
      (decodeList strFromJson infos).map (fun xs => ⟨xs, fm, lu⟩)
  | _ => none

/-- Reader inverting `historyToJson`. -/
def historyFromJson : JsonVal → Option HistoryRec
  | .obj [("status", .str s), ("details", .str d), ("timestamp", .num t)] =>
      some ⟨s, d, t⟩
  | _ => none

/-- Reader inverting `taskToJson`. -/
def taskFromJson : JsonVal → Option TaskRec
  | .obj [("status", .str s), ("history", .arr h), ("created", .num c),
          ("last_updated", .num lu)] =>
      (decodeList historyFromJson h).map (fun hs => ⟨s, hs, c, lu⟩)
  | _ => none

/-- Reader of the snapshot document back into a `Memory` value: it inverts
`memToJson`, witnessing that the snapshot determines the four collections
and the timestamp losslessly. -/
def memFromJson : JsonVal → Option Memory
  | .obj [("facts", .arr fs), ("entities", .obj es), ("conversations", .arr cs),
          ("tasks", .obj ts), ("reflections", .arr rs), ("last_updated", .num lu)] =>
      match decodeList factFromJson fs, decodePairs entityFromJson es,
            decodePairs taskFromJson ts, decodeList factFromJson rs with
      | some fs2, some es2, some ts2, some rs2 => some ⟨fs2, es2, cs, ts2, rs2, lu⟩
      | _, _, _, _ => none
  | _ => none

/-- Tool state: the in-memory dict plus the memory snapshot file on disk
(the parsed document, `none` when the file is absent). -/
structure MState where
  memory : Memory
  file : Option JsonVal

/-- `MemoryTool._save_memory`: stamp the store-level `last_updated`
timestamp and rewrite the whole snapshot file. -/
def save_memory (m : Memory) (now : Int) : Memory × JsonVal :=
  let m2 := { m with last_updated := now }
  (m2, memToJson m2)

/-- `MemoryTool.store_fact`: append `{"content": fact, "timestamp": now}`
to `facts`, save, and return the confirmation message. -/
def store_fact (s : MState) (fact : String) (now : Int) : MState × String :=
  let m := { s.memory with facts := s.memory.facts ++ [⟨fact, now⟩] }
  let saved := save_memory m now
  (⟨saved.1, some saved.2⟩, "Fact stored in memory: \x27" ++ fact ++ "\x27")

/-- The shared 1-based `enumerate` rendering loop building
`"{i}. {text}\n"` lines. -/
def renderEnum (xs : List String) : String :=
  String.join ((xs.enumFrom 1).map (fun p => toString p.1 ++ ". " ++ p.2 ++ "\n"))

/-- Python substring test `needle in hay`, on character lists. -/
def containsSub (needle : List Char) : List Char → Bool
  | [] => needle.isEmpty
  | a :: t => needle.isPrefixOf (a :: t) || containsSub needle t

/-- `query.lower() in content.lower()` (ASCII case folding). -/
def containsCI (query content : String) : Bool :=
  containsSub (query.data.map Char.toLower) (content.data.map Char.toLower)

/-- `MemoryTool.retrieve_facts` (read-only).  `query = none` models Python
`None`; the empty string is likewise falsy for `if query:`, so both fall
through to the list-all branch. -/
def retrieve_facts (s : MState) (query : Option String) : String :=
  let facts := s.memory.facts
  if facts.isEmpty then "No facts stored in memory."
  else
    match query with
    | some q =>
        if q != "" then
          let filtered := facts.filter (fun f => containsCI q f.content)
          if filtered.isEmpty then "No facts found matching query: \x27" ++ q ++ "\x27"
          else "Facts related to \x27" ++ q ++ "\x27:\n\n"
            ++ renderEnum (filtered.map (fun f => f.content))
        else "All stored facts:\n\n" ++ renderEnum (facts.map (fun f => f.content))
    | none => "All stored facts:\n\n" ++ renderEnum (facts.map (fun f => f.content))

/-- `MemoryTool.store_entity_information`: create the entity record when the
name is absent, else append to its information list and bump its
`last_updated`; then save. -/
def store_entity_information (s : MState) (entity_name information : String)
    (now : Int) : MState × String :=
  let m := s.memory
  let entities2 :=
    match dictFind m.entities entity_name with
    | none => dictSet m.entities entity_name ⟨[information], now, now⟩
    | some e => dictSet m.entities entity_name
        ⟨e.information ++ [information], e.first_mentioned, now⟩
  let saved := save_memory { m with entities := entities2 } now
  (⟨saved.1, some saved.2⟩,
    "Information about \x27" ++ entity_name ++ "\x27 stored in memory.")

/-- `MemoryTool.retrieve_entity` (read-only). -/
def retrieve_entity (s : MState) (entity_name : String) : String :=
  match dictFind s.memory.entities entity_name with
  | none => "No information found for entity: \x27" ++ entity_name ++ "\x27"
  | some e => "Information about \x27" ++ entity_name ++ "\x27:\n\n"
      ++ renderEnum e.information

/-- `MemoryTool.log_task`: create the task entry (with a one-element
history) when the name is unknown, else overwrite the current status and
append one history record; then save. -/
def log_task (s : MState) (task_name status details : String) (now : Int) :
    MState × String :=
  let m := s.memory
  let tasks2 :=
    match dictFind m.tasks task_name with
    | none => dictSet m.tasks task_name ⟨status, [⟨status, details, now⟩], now, now⟩
    | some t => dictSet m.tasks task_name
        ⟨status, t.history ++ [⟨status, details, now⟩], t.created, now⟩
  let saved := save_memory { m with tasks := tasks2 } now
  (⟨saved.1, some saved.2⟩,
    "Task \x27" ++ task_name ++ "\x27 logged with status: " ++ status)

/-- `MemoryTool.add_reflection`: append `{"content": ..., "timestamp": ...}`
to `reflections`, save, and return the confirmation message. -/
def add_reflection (s : MState) (content : String) (now : Int) : MState × String :=
  let m := { s.memory with reflections := s.memory.reflections ++ [⟨content, now⟩] }
  let saved := save_memory m now
  (⟨saved.1, some saved.2⟩, "Reflection added to memory.")

/-- The memory file as `_load_memory` sees it: absent, present but
unparseable, or parsed JSON content. -/
inductive DiskFile where
  | missing : DiskFile
  | corrupt : DiskFile
  | content : JsonVal → DiskFile

/-- `MemoryTool._load_memory` together with the file effect of the save
inside `_initialize_memory`: returns the loaded document (the raw parsed
dict) and the resulting file state.  A missing file, or one on which
`json.load` raises (caught by the bare `except`), is silently replaced by
a freshly initialised snapshot; nothing propagates to the caller. -/
def load_memory (disk : DiskFile) (now : Int) : JsonVal × DiskFile :=
  match disk with
  | .content j => (j, .content j)
  | .corrupt =>
      (memToJson (initialize_memory now), .content (memToJson (initialize_memory now)))
  | .missing =>
      (memToJson (initialize_memory now), .content (memToJson (initialize_memory now)))

/-- Repeated `log_task` calls for one task name
(status, details, timestamp of each call, in order). -/
def applyLogs (s : MState) (n : String) : List (String × String × Int) → MState
  | [] => s
  | c :: rest => applyLogs (log_task s n c.1 c.2.1 c.2.2).1 n rest

/-- Length of the history of task `n` (0 when the task is unknown). -/
def taskHistLen (m : Memory) (n : String) : Nat :=
  match dictFind m.tasks n with
  | none => 0
  | some t => t.history.length

/-- Looking up the key just assigned returns the assigned value. -/
theorem dictFind_dictSet_self {β : Type} (d : List (String × β)) (k : String) (v : β) :
    dictFind (dictSet d k v) k = some v := by
  induction d with
  | nil => simp [dictSet, dictFind]
  | cons p rest ih =>
      obtain ⟨k0, w⟩ := p
      by_cases h : k0 = k <;> simp [dictSet, dictFind, h, ih]

/-- Assigning one key leaves every other key unchanged. -/
theorem dictFind_dictSet_ne {β : Type} (d : List (String × β)) (k k2 : String) (v : β)
    (h : k2 ≠ k) : dictFind (dictSet d k v) k2 = dictFind d k2 := by
  have hk : k ≠ k2 := fun h2 => h h2.symm
  induction d with
  | nil => simp [dictSet, dictFind, hk]
  | cons p rest ih =>
      obtain ⟨k0, w⟩ := p
      by_cases h0 : k0 = k
      · subst h0
        simp [dictSet, dictFind, hk]
      · simp [dictSet, dictFind, h0, ih]

/-- `containsSub` decides list containment (the semantics of Python
`needle in hay` on strings). -/
theorem containsSub_iff (needle : List Char) :
    ∀ hay, containsSub needle hay = true ↔ needle <:+: hay := by
  intro hay
  induction hay with
  | nil =>
      cases needle <;> simp [containsSub, List.infix_nil, List.isEmpty]
  | cons a t ih =>
      simp [containsSub, Bool.or_eq_true, ih, List.infix_cons_iff,
        List.isPrefixOf_iff_prefix]

/-- `containsCI` decides case-insensitive substring containment. -/
theorem containsCI_iff (q c : String) :
    containsCI q c = true ↔
      (q.data.map Char.toLower) <:+: (c.data.map Char.toLower) :=
  containsSub_iff _ _

/-- The code-side filter of `retrieve_facts` equals filtering by the
case-insensitive-substring relation. -/
theorem filter_containsCI_eq (q : String) (l : List FactRec) :
    l.filter (fun f => containsCI q f.content)
      = l.filter (fun f =>
          decide ((q.data.map Char.toLower) <:+: (f.content.data.map Char.toLower))) := by
  apply List.filter_congr
  intro f _
  rcases hb : containsCI q f.content with _ | _
  · have : ¬ (q.data.map Char.toLower) <:+: (f.content.data.map Char.toLower) := by
      intro hi
      have := (containsCI_iff q f.content).mpr hi
      simp [hb] at this
    simp [this]
  · have := (containsCI_iff q f.content).mp hb
    simp [this]

/-- Decoding an encoded list element by element restores the list. -/
theorem decodeList_map {α : Type} (enc : α → JsonVal) (dec : JsonVal → Option α)
    (h : ∀ a, dec (enc a) = some a) :
    ∀ l : List α, decodeList dec (l.map enc) = some l := by
  intro l
  induction l with
  | nil => rfl
  | cons a t ih => simp [decodeList, h, ih]

/-- Decoding encoded object fields element by element restores them. -/
theorem decodePairs_map {α : Type} (enc : α → JsonVal) (dec : JsonVal → Option α)
    (h : ∀ a, dec (enc a) = some a) :
    ∀ l : List (String × α),
      decodePairs dec (l.map (fun p => (p.1, enc p.2))) = some l := by
  intro l
  induction l with
  | nil => rfl
  | cons p t ih => simp [decodePairs, h, ih]

/-- Fact records round-trip through JSON. -/
theorem factFromJson_factToJson (f : FactRec) : factFromJson (factToJson f) = some f := rfl

/-- Entity records round-trip through JSON. -/
theorem entityFromJson_entityToJson (e : EntityRec) :
    entityFromJson (entityToJson e) = some e := by
  simp [entityToJson, entityFromJson,
    decodeList_map JsonVal.str strFromJson (fun _ => rfl)]

/-- Task-history records round-trip through JSON. -/
theorem historyFromJson_historyToJson (h : HistoryRec) :
    historyFromJson (historyToJson h) = some h := rfl

/-- Task records round-trip through JSON. -/
theorem taskFromJson_taskToJson (t : TaskRec) : taskFromJson (taskToJson t) = some t := by
  simp [taskToJson, taskFromJson,
    decodeList_map historyToJson historyFromJson historyFromJson_historyToJson]

/-- The whole snapshot document round-trips: `memFromJson` inverts
`memToJson`. -/
theorem memFromJson_memToJson (m : Memory) : memFromJson (memToJson m) = some m := by
  simp [memToJson, memFromJson,
    decodeList_map factToJson factFromJson factFromJson_factToJson,
    decodePairs_map entityToJson entityFromJson entityFromJson_entityToJson,
    decodePairs_map taskToJson taskFromJson taskFromJson_taskToJson]

/-- Each `log_task` call grows the history of the logged task by one. -/
theorem taskHistLen_log_task (s : MState) (n st d : String) (now : Int) :
    taskHistLen ((log_task s n st d now).1.memory) n = taskHistLen s.memory n + 1 := by
  rcases h : dictFind s.memory.tasks n with _ | t <;>
    simp [log_task, save_memory, taskHistLen, h, dictFind_dictSet_self]

/-- Over a run of `log_task` calls for one name, the history grows by the
number of calls. -/
theorem taskHistLen_applyLogs (n : String) :
    ∀ (calls : List (String × String × Int)) (s : MState),
      taskHistLen ((applyLogs s n calls).memory) n
        = taskHistLen s.memory n + calls.length := by
  intro calls
  induction calls with
  | nil => intro s; simp [applyLogs]
  | cons c rest ih =>
      intro s
      simp [applyLogs, ih, taskHistLen_log_task]
      omega

/-- The entities dict after `store_entity_information`, by cases on
whether the name was present. -/
theorem store_entity_entities (s : MState) (n info : String) (now : Int) :
    (store_entity_information s n info now).1.memory.entities
      = match dictFind s.memory.entities n with
        | none => dictSet s.memory.entities n ⟨[info], now, now⟩
        | some e => dictSet s.memory.entities n
            ⟨e.information ++ [info], e.first_mentioned, now⟩ := rfl

/-- The task dict after `log_task`, by cases on whether the name was known. -/
theorem log_task_tasks (s : MState) (n st d : String) (now : Int) :
    (log_task s n st d now).1.memory.tasks
      = match dictFind s.memory.tasks n with
        | none => dictSet s.memory.tasks n ⟨st, [⟨st, d, now⟩], now, now⟩
        | some t => dictSet s.memory.tasks n
            ⟨st, t.history ++ [⟨st, d, now⟩], t.created, now⟩ := rfl

end MemoryTool

/-- C1: after `_cache_result` stores payload `p` for query `q` at time `t0`,
`_get_cached_result` at time `now` returns `p` whenever `now - t0 < 86400`;
once `86400 ≤ now - t0` it reports a miss (Python `None`) although the
entry file still exists on disk; an absent entry yields the identical miss
result. -/
theorem c1_cache_put_get_ttl (store : WebSearchTool.CacheStore) (q : String)
    (p : JsonVal) (t0 now : Int) :
    (now - t0 < 86400 →
      WebSearchTool.get_cached_result
        (WebSearchTool.cache_result store t0 q p) now q = p)
    ∧ (86400 ≤ now - t0 →
      WebSearchTool.get_cached_result
          (WebSearchTool.cache_result store t0 q p) now q = JsonVal.null
        ∧ WebSearchTool.cache_result store t0 q p q ≠ none)
    ∧ (store q = none →
      WebSearchTool.get_cached_result store now q = JsonVal.null) := by
  refine ⟨?_, ?_, ?_⟩
  · intro h
    simp [WebSearchTool.get_cached_result, WebSearchTool.cache_result, h]
  · intro h
    have hlt : ¬ (now - t0 < 86400) := by omega
    refine ⟨?_, ?_⟩
    · simp [WebSearchTool.get_cached_result, WebSearchTool.cache_result, hlt]
    · simp [WebSearchTool.cache_result]
  · intro h
    simp [WebSearchTool.get_cached_result, h]

/-- Witness for C1 at a concrete store, query, payload and times. -/
theorem c1_cache_put_get_ttl_witness :
    (WebSearchTool.get_cached_result
        (WebSearchTool.cache_result (fun _ => none) 0 "q" (JsonVal.str "r")) 100 "q"
      = JsonVal.str "r")
    ∧ (WebSearchTool.get_cached_result
          (WebSearchTool.cache_result (fun _ => none) 0 "q" (JsonVal.str "r")) 86400 "q"
        = JsonVal.null
      ∧ WebSearchTool.cache_result (fun _ => none) 0 "q" (JsonVal.str "r") "q" ≠ none)
    ∧ WebSearchTool.get_cached_result (fun _ => none) 100 "q" = JsonVal.null :=
  ⟨(c1_cache_put_get_ttl (fun _ => none) "q" (JsonVal.str "r") 0 100).1 (by norm_num),
   (c1_cache_put_get_ttl (fun _ => none) "q" (JsonVal.str "r") 0 86400).2.1 (by norm_num),
   (c1_cache_put_get_ttl (fun _ => none) "q" (JsonVal.str "r") 0 100).2.2 rfl⟩

/-- C10: an unexpired cache entry whose `results` value is missing or falsy
is still treated as a miss by `search`: the simulated results are
recomputed and the entry overwritten, although the entry file exists and
its timestamp is within the 24-hour TTL. -/
theorem c10_falsy_entry_recomputed (store : WebSearchTool.CacheStore) (q : String)
    (cd : WebSearchTool.CacheFileData) (now : Int)
    (hmem : store q = some cd)
    (hfresh : now - cd.timestamp.getD 0 < 86400)
    (hfalsy : (cd.results.getD JsonVal.null).truthy = false) :
    (WebSearchTool.search store now q).1
        = WebSearchTool.format_results (WebSearchTool.simulated_results q) q
    ∧ (WebSearchTool.search store now q).2 q
        = some ⟨some now, some q, some (WebSearchTool.simulated_results q)⟩ := by
  have hcached : WebSearchTool.get_cached_result store now q
      = cd.results.getD JsonVal.null := by
    simp [WebSearchTool.get_cached_result, hmem, hfresh]
  refine ⟨?_, ?_⟩ <;>
    simp [WebSearchTool.search, hcached, hfalsy, WebSearchTool.cache_result]

/-- Witness for C10: a fresh entry holding an empty (falsy) results list is
recomputed and overwritten. -/
theorem c10_falsy_entry_recomputed_witness :
    (WebSearchTool.search
        (fun k => if k = "q" then some ⟨some 0, some "q", some (JsonVal.arr [])⟩ else none)
        10 "q").1
      = WebSearchTool.format_results (WebSearchTool.simulated_results "q") "q"
    ∧ (WebSearchTool.search
        (fun k => if k = "q" then some ⟨some 0, some "q", some (JsonVal.arr [])⟩ else none)
        10 "q").2 "q"
      = some ⟨some 10, some "q", some (WebSearchTool.simulated_results "q")⟩ :=
  c10_falsy_entry_recomputed
    (fun k => if k = "q" then some ⟨some 0, some "q", some (JsonVal.arr [])⟩ else none)
    "q" ⟨some 0, some "q", some (JsonVal.arr [])⟩ 10 (by simp) (by norm_num [Option.getD]) rfl

/-- C2 as frozen is false on a store that already holds a fact with the
same content: storing "a" over facts `[{"a", 0}]` yields a listing in which
"a" occurs twice, not exactly once. -/
theorem c2_store_retrieve_counterexample :
    ¬ (((MemoryTool.store_fact ⟨⟨[⟨"a", 0⟩], [], [], [], [], 0⟩, none⟩ "a" 1).1.memory.facts.map
          (fun f => f.content)).count "a" = 1) := by
  decide

/-- C2 amended: after `store_fact f`, the stored contents are the previous
contents with `f` appended (insertion order, `f` last), `retrieve_facts`
with no query lists exactly them, and `f` occurs exactly once provided no
previously stored fact already had content `f` (in general its occurrence
count grows by one). -/
theorem c2_store_retrieve_order (s : MemoryTool.MState) (f : String) (now : Int) :
    ((MemoryTool.store_fact s f now).1.memory.facts.map (fun x => x.content)
        = s.memory.facts.map (fun x => x.content) ++ [f])
    ∧ (MemoryTool.retrieve_facts (MemoryTool.store_fact s f now).1 none
        = "All stored facts:\n\n"
          ++ MemoryTool.renderEnum (s.memory.facts.map (fun x => x.content) ++ [f]))
    ∧ (((MemoryTool.store_fact s f now).1.memory.facts.map (fun x => x.content)).count f
        = (s.memory.facts.map (fun x => x.content)).count f + 1)
    ∧ (f ∉ s.memory.facts.map (fun x => x.content) →
        ((MemoryTool.store_fact s f now).1.memory.facts.map (fun x => x.content)).count f
          = 1) := by
  have hfacts : (MemoryTool.store_fact s f now).1.memory.facts
      = s.memory.facts ++ [⟨f, now⟩] := rfl
  refine ⟨?_, ?_, ?_, ?_⟩
  · simp [hfacts]
  · simp [MemoryTool.retrieve_facts, hfacts]
  · simp [hfacts, List.count_append]
  · intro hf
    simp [hfacts, List.count_append, List.count_eq_zero.mpr hf]

/-- Witness for the amended C2 on the empty store. -/
theorem c2_store_retrieve_order_witness :
    ((MemoryTool.store_fact ⟨⟨[], [], [], [], [], 0⟩, none⟩ "a" 1).1.memory.facts.map
        (fun x => x.content)).count "a" = 1 :=
  (c2_store_retrieve_order ⟨⟨[], [], [], [], [], 0⟩, none⟩ "a" 1).2.2.2 (by simp)

/-- C3: each mutating operation (`store_fact`, `store_entity_information`,
`log_task`, `add_reflection`) stamps the store-level `last_updated`
timestamp with the call time and leaves on disk the complete snapshot of
the post-mutation memory when it returns its confirmation. -/
theorem c3_mutations_stamp_and_flush (s : MemoryTool.MState)
    (fact ename einfo tname tstatus tdetails rcontent : String) (now : Int) :
    ((MemoryTool.store_fact s fact now).1.file
        = some (MemoryTool.memToJson (MemoryTool.store_fact s fact now).1.memory)
      ∧ (MemoryTool.store_fact s fact now).1.memory.last_updated = now)
    ∧ ((MemoryTool.store_entity_information s ename einfo now).1.file
        = some (MemoryTool.memToJson
            (MemoryTool.store_entity_information s ename einfo now).1.memory)
      ∧ (MemoryTool.store_entity_information s ename einfo now).1.memory.last_updated
          = now)
    ∧ ((MemoryTool.log_task s tname tstatus tdetails now).1.file
        = some (MemoryTool.memToJson
            (MemoryTool.log_task s tname tstatus tdetails now).1.memory)
      ∧ (MemoryTool.log_task s tname tstatus tdetails now).1.memory.last_updated = now)
    ∧ ((MemoryTool.add_reflection s rcontent now).1.file
        = some (MemoryTool.memToJson (MemoryTool.add_reflection s rcontent now).1.memory)
      ∧ (MemoryTool.add_reflection s rcontent now).1.memory.last_updated = now) :=
  ⟨⟨rfl, rfl⟩, ⟨rfl, rfl⟩, ⟨rfl, rfl⟩, ⟨rfl, rfl⟩⟩

/-- C6: `_load_memory` never propagates an error to the caller: a missing
file, or one on which `json.load` raises (swallowed by the bare `except`),
is silently replaced by the freshly initialised empty structure, which is
also written back to disk; a parseable file is returned as-is. -/
theorem c6_load_reinitializes (disk : MemoryTool.DiskFile) (now : Int) :
    ((disk = MemoryTool.DiskFile.missing ∨ disk = MemoryTool.DiskFile.corrupt) →
      MemoryTool.load_memory disk now
        = (MemoryTool.memToJson (MemoryTool.initialize_memory now),
           MemoryTool.DiskFile.content
             (MemoryTool.memToJson (MemoryTool.initialize_memory now))))
    ∧ (∀ j, disk = MemoryTool.DiskFile.content j →
        MemoryTool.load_memory disk now = (j, MemoryTool.DiskFile.content j)) := by
  constructor
  · rintro (rfl | rfl) <;> rfl
  · rintro j rfl
    rfl

/-- Witness for C6: a corrupt file and a parseable file, both at time 0. -/
theorem c6_load_reinitializes_witness :
    (MemoryTool.load_memory MemoryTool.DiskFile.corrupt 0
      = (MemoryTool.memToJson (MemoryTool.initialize_memory 0),
         MemoryTool.DiskFile.content
           (MemoryTool.memToJson (MemoryTool.initialize_memory 0))))
    ∧ (MemoryTool.load_memory (MemoryTool.DiskFile.content (JsonVal.num 3)) 0
      = (JsonVal.num 3, MemoryTool.DiskFile.content (JsonVal.num 3))) :=
  ⟨(c6_load_reinitializes MemoryTool.DiskFile.corrupt 0).1 (Or.inr rfl),
   (c6_load_reinitializes (MemoryTool.DiskFile.content (JsonVal.num 3)) 0).2
     (JsonVal.num 3) rfl⟩

/-- C8: the snapshot written by `_save_memory` is the single structured
document `memToJson` of the post-save memory; that document carries the
four collections and the `last_updated` timestamp as top-level fields, and
`memFromJson` restores any memory state from its snapshot losslessly. -/
theorem c8_snapshot_lossless (m : MemoryTool.Memory) (now : Int) :
    ((MemoryTool.save_memory m now).2
        = MemoryTool.memToJson (MemoryTool.save_memory m now).1)
    ∧ (MemoryTool.save_memory m now).1 = { m with last_updated := now }
    ∧ (∃ fields, MemoryTool.memToJson m = JsonVal.obj fields
        ∧ MemoryTool.dictFind fields "facts"
            = some (JsonVal.arr (m.facts.map MemoryTool.factToJson))
        ∧ MemoryTool.dictFind fields "entities"
            = some (JsonVal.obj
                (m.entities.map (fun p => (p.1, MemoryTool.entityToJson p.2))))
        ∧ MemoryTool.dictFind fields "tasks"
            = some (JsonVal.obj (m.tasks.map (fun p => (p.1, MemoryTool.taskToJson p.2))))
        ∧ MemoryTool.dictFind fields "reflections"
            = some (JsonVal.arr (m.reflections.map MemoryTool.factToJson))
        ∧ MemoryTool.dictFind fields "last_updated" = some (JsonVal.num m.last_updated))
    ∧ MemoryTool.memFromJson (MemoryTool.memToJson m) = some m := by
  refine ⟨rfl, rfl, ⟨_, rfl, ?_, ?_, ?_, ?_, ?_⟩, MemoryTool.memFromJson_memToJson m⟩ <;>
    simp [MemoryTool.dictFind]

/-- C4: `store_entity_information` creates the record `[info]` for an
absent name; for a present name it appends `info` and bumps the entity's
`last_updated` while keeping `first_mentioned`; storing "info1" then
"info2" for a fresh name and then retrieving returns both strings in
insertion order under one record. -/
theorem c4_store_entity_upsert (s : MemoryTool.MState) (n info info1 info2 : String)
    (now now1 now2 : Int) :
    (MemoryTool.dictFind s.memory.entities n = none →
      MemoryTool.dictFind
          ((MemoryTool.store_entity_information s n info now).1.memory.entities) n
        = some ⟨[info], now, now⟩)
    ∧ (∀ e, MemoryTool.dictFind s.memory.entities n = some e →
      MemoryTool.dictFind
          ((MemoryTool.store_entity_information s n info now).1.memory.entities) n
        = some ⟨e.information ++ [info], e.first_mentioned, now⟩)
    ∧ (MemoryTool.dictFind s.memory.entities n = none →
      MemoryTool.dictFind
          ((MemoryTool.store_entity_information
              (MemoryTool.store_entity_information s n info1 now1).1
              n info2 now2).1.memory.entities) n
        = some ⟨[info1, info2], now1, now2⟩
      ∧ MemoryTool.retrieve_entity
          (MemoryTool.store_entity_information
            (MemoryTool.store_entity_information s n info1 now1).1 n info2 now2).1 n
        = "Information about \x27" ++ n ++ "\x27:\n\n"
          ++ MemoryTool.renderEnum [info1, info2]) := by
  have hstep1 : ∀ (s2 : MemoryTool.MState) (i : String) (t : Int),
      MemoryTool.dictFind s2.memory.entities n = none →
      MemoryTool.dictFind
          ((MemoryTool.store_entity_information s2 n i t).1.memory.entities) n
        = some ⟨[i], t, t⟩ := by
    intro s2 i t h
    simp [MemoryTool.store_entity_entities, h, MemoryTool.dictFind_dictSet_self]
  have hstep2 : ∀ (s2 : MemoryTool.MState) (e : MemoryTool.EntityRec) (i : String) (t : Int),
      MemoryTool.dictFind s2.memory.entities n = some e →
      MemoryTool.dictFind
          ((MemoryTool.store_entity_information s2 n i t).1.memory.entities) n
        = some ⟨e.information ++ [i], e.first_mentioned, t⟩ := by
    intro s2 e i t h
    simp [MemoryTool.store_entity_entities, h, MemoryTool.dictFind_dictSet_self]
  refine ⟨hstep1 s info now, fun e h => hstep2 s e info now h, ?_⟩
  intro h
  have h1 := hstep1 s info1 now1 h
  have h2 := hstep2 _ ⟨[info1], now1, now1⟩ info2 now2 h1
  refine ⟨h2, ?_⟩
  simp [MemoryTool.retrieve_entity, h2]

/-- Witness for C4: a fresh entity on the empty store, an append on a
store already holding the entity, and the two-store-then-retrieve run. -/
theorem c4_store_entity_upsert_witness :
    (MemoryTool.dictFind
        ((MemoryTool.store_entity_information
            ⟨⟨[], [], [], [], [], 0⟩, none⟩ "n" "i" 5).1.memory.entities) "n"
      = some ⟨["i"], 5, 5⟩)
    ∧ (MemoryTool.dictFind
        ((MemoryTool.store_entity_information
            ⟨⟨[], [("n", ⟨["x"], 3, 4⟩)], [], [], [], 0⟩, none⟩ "n" "i" 5).1.memory.entities) "n"
      = some ⟨["x", "i"], 3, 5⟩)
    ∧ (MemoryTool.retrieve_entity
        (MemoryTool.store_entity_information
          (MemoryTool.store_entity_information
            ⟨⟨[], [], [], [], [], 0⟩, none⟩ "n" "info1" 1).1 "n" "info2" 2).1 "n"
      = "Information about \x27n\x27:\n\n" ++ MemoryTool.renderEnum ["info1", "info2"]) :=
  ⟨(c4_store_entity_upsert ⟨⟨[], [], [], [], [], 0⟩, none⟩ "n" "i" "u" "v" 5 0 0).1 rfl,
   (c4_store_entity_upsert ⟨⟨[], [("n", ⟨["x"], 3, 4⟩)], [], [], [], 0⟩, none⟩
      "n" "i" "u" "v" 5 0 0).2.1 ⟨["x"], 3, 4⟩ (by simp [MemoryTool.dictFind]),
   ((c4_store_entity_upsert ⟨⟨[], [], [], [], [], 0⟩, none⟩ "n" "i" "info1" "info2"
      5 1 2).2.2 rfl).2⟩

/-- C5: `log_task` creates a one-element-history entry for an unknown
name; for a known name it overwrites the current status, keeps `created`
and appends one history record; each call appends exactly one record, so
after a run of calls for one name starting from an unknown name the
history length equals the number of calls. -/
theorem c5_log_task_upsert (s : MemoryTool.MState) (n st d : String) (now : Int) :
    (MemoryTool.dictFind s.memory.tasks n = none →
      MemoryTool.dictFind ((MemoryTool.log_task s n st d now).1.memory.tasks) n
        = some ⟨st, [⟨st, d, now⟩], now, now⟩)
    ∧ (∀ t, MemoryTool.dictFind s.memory.tasks n = some t →
      MemoryTool.dictFind ((MemoryTool.log_task s n st d now).1.memory.tasks) n
        = some ⟨st, t.history ++ [⟨st, d, now⟩], t.created, now⟩)
    ∧ MemoryTool.taskHistLen ((MemoryTool.log_task s n st d now).1.memory) n
        = MemoryTool.taskHistLen s.memory n + 1
    ∧ (∀ calls : List (String × String × Int),
        MemoryTool.dictFind s.memory.tasks n = none →
        MemoryTool.taskHistLen ((MemoryTool.applyLogs s n calls).memory) n
          = calls.length) := by
  refine ⟨?_, ?_, MemoryTool.taskHistLen_log_task s n st d now, ?_⟩
  · intro h
    simp [MemoryTool.log_task_tasks, h, MemoryTool.dictFind_dictSet_self]
  · intro t h
    simp [MemoryTool.log_task_tasks, h, MemoryTool.dictFind_dictSet_self]
  · intro calls h
    rw [MemoryTool.taskHistLen_applyLogs n calls s]
    simp [MemoryTool.taskHistLen, h]

/-- Witness for C5: a fresh task, an update of a known task, and a
two-call run on the empty store. -/
theorem c5_log_task_upsert_witness :
    (MemoryTool.dictFind
        ((MemoryTool.log_task ⟨⟨[], [], [], [], [], 0⟩, none⟩ "t" "s" "d" 1).1.memory.tasks) "t"
      = some ⟨"s", [⟨"s", "d", 1⟩], 1, 1⟩)
    ∧ (MemoryTool.dictFind
        ((MemoryTool.log_task
            ⟨⟨[], [], [], [("t", ⟨"old", [⟨"old", "x", 0⟩], 0, 0⟩)], [], 0⟩, none⟩
            "t" "s" "d" 1).1.memory.tasks) "t"
      = some ⟨"s", [⟨"old", "x", 0⟩, ⟨"s", "d", 1⟩], 0, 1⟩)
    ∧ (MemoryTool.taskHistLen
        ((MemoryTool.applyLogs ⟨⟨[], [], [], [], [], 0⟩, none⟩ "t"
            [("a", "b", 1), ("c", "d", 2)]).memory) "t" = 2) :=
  ⟨(c5_log_task_upsert ⟨⟨[], [], [], [], [], 0⟩, none⟩ "t" "s" "d" 1).1 rfl,
   (c5_log_task_upsert
      ⟨⟨[], [], [], [("t", ⟨"old", [⟨"old", "x", 0⟩], 0, 0⟩)], [], 0⟩, none⟩
      "t" "s" "d" 1).2.1 ⟨"old", [⟨"old", "x", 0⟩], 0, 0⟩ (by simp [MemoryTool.dictFind]),
   (c5_log_task_upsert ⟨⟨[], [], [], [], [], 0⟩, none⟩ "t" "a" "b" 1).2.2.2
     [("a", "b", 1), ("c", "d", 2)] rfl⟩

/-- C9: on a present entity, `store_entity_information` changes only that
entity's information list and `last_updated` (and the store-level
timestamp): `first_mentioned` is kept, the facts, tasks, reflections and
conversations collections are untouched, and every other entity is
unchanged. -/
theorem c9_store_entity_frame (s : MemoryTool.MState) (n info : String) (now : Int)
    (e : MemoryTool.EntityRec)
    (h : MemoryTool.dictFind s.memory.entities n = some e) :
    (MemoryTool.store_entity_information s n info now).1.memory.facts = s.memory.facts
    ∧ (MemoryTool.store_entity_information s n info now).1.memory.tasks = s.memory.tasks
    ∧ (MemoryTool.store_entity_information s n info now).1.memory.reflections
        = s.memory.reflections
    ∧ (MemoryTool.store_entity_information s n info now).1.memory.conversations
        = s.memory.conversations
    ∧ MemoryTool.dictFind
        ((MemoryTool.store_entity_information s n info now).1.memory.entities) n
        = some ⟨e.information ++ [info], e.first_mentioned, now⟩
    ∧ (∀ k, k ≠ n →
        MemoryTool.dictFind
          ((MemoryTool.store_entity_information s n info now).1.memory.entities) k
          = MemoryTool.dictFind s.memory.entities k) := by
  refine ⟨rfl, rfl, rfl, rfl, ?_, ?_⟩
  · simp [MemoryTool.store_entity_entities, h, MemoryTool.dictFind_dictSet_self]
  · intro k hk
    simp [MemoryTool.store_entity_entities, h,
      MemoryTool.dictFind_dictSet_ne _ _ _ _ hk]

/-- Witness for C9 on a concrete two-entity store. -/
theorem c9_store_entity_frame_witness :
    (MemoryTool.store_entity_information
        ⟨⟨[⟨"f", 0⟩], [("m", ⟨["y"], 1, 1⟩), ("n", ⟨["x"], 3, 4⟩)], [], [], [], 0⟩, none⟩
        "n" "i" 9).1.memory.facts = [⟨"f", 0⟩]
    ∧ MemoryTool.dictFind
        ((MemoryTool.store_entity_information
          ⟨⟨[⟨"f", 0⟩], [("m", ⟨["y"], 1, 1⟩), ("n", ⟨["x"], 3, 4⟩)], [], [], [], 0⟩, none⟩
          "n" "i" 9).1.memory.entities) "n"
        = some ⟨["x", "i"], 3, 9⟩
    ∧ MemoryTool.dictFind
        ((MemoryTool.store_entity_information
          ⟨⟨[⟨"f", 0⟩], [("m", ⟨["y"], 1, 1⟩), ("n", ⟨["x"], 3, 4⟩)], [], [], [], 0⟩, none⟩
          "n" "i" 9).1.memory.entities) "m"
        = some ⟨["y"], 1, 1⟩ := by
  have hc := c9_store_entity_frame
    ⟨⟨[⟨"f", 0⟩], [("m", ⟨["y"], 1, 1⟩), ("n", ⟨["x"], 3, 4⟩)], [], [], [], 0⟩, none⟩
    "n" "i" 9 ⟨["x"], 3, 4⟩ (by simp [MemoryTool.dictFind])
  exact ⟨hc.1, hc.2.2.2.2.1, (hc.2.2.2.2.2 "m" (by decide)).trans (by simp [MemoryTool.dictFind])⟩

/-- C7: with a non-empty store and a non-empty query, `retrieve_facts`
lists exactly the facts whose content contains the query as a
case-insensitive substring, and when none matches it returns the explicit
no-match message; an empty store returns its own explicit message, and the
falsy empty query lists all facts, which is again exactly the matching set
(every content contains the empty substring).  All paths return normally. -/
theorem c7_retrieve_facts_matching (s : MemoryTool.MState) (q : String) :
    (s.memory.facts = [] →
      MemoryTool.retrieve_facts s (some q) = "No facts stored in memory.")
    ∧ (s.memory.facts ≠ [] → q ≠ "" →
      (s.memory.facts.filter (fun f =>
          decide ((q.data.map Char.toLower) <:+: (f.content.data.map Char.toLower))) = [] →
        MemoryTool.retrieve_facts s (some q)
          = "No facts found matching query: \x27" ++ q ++ "\x27")
      ∧ (s.memory.facts.filter (fun f =>
          decide ((q.data.map Char.toLower) <:+: (f.content.data.map Char.toLower))) ≠ [] →
        MemoryTool.retrieve_facts s (some q)
          = "Facts related to \x27" ++ q ++ "\x27:\n\n"
            ++ MemoryTool.renderEnum
              ((s.memory.facts.filter (fun f =>
                  decide ((q.data.map Char.toLower)
                    <:+: (f.content.data.map Char.toLower)))).map
                (fun f => f.content))))
    ∧ (s.memory.facts ≠ [] → q = "" →
      s.memory.facts.filter (fun f =>
          decide ((q.data.map Char.toLower) <:+: (f.content.data.map Char.toLower)))
        = s.memory.facts
      ∧ MemoryTool.retrieve_facts s (some q)
        = "All stored facts:\n\n"
          ++ MemoryTool.renderEnum (s.memory.facts.map (fun f => f.content))) := by
  have hfilter := MemoryTool.filter_containsCI_eq q s.memory.facts
  refine ⟨?_, ?_, ?_⟩
  · intro h
    simp [MemoryTool.retrieve_facts, h]
  · intro hne hq
    have h1 : s.memory.facts.isEmpty = false := by
      cases h2 : s.memory.facts with
      | nil => exact absurd h2 hne
      | cons a t => rfl
    have h2 : (q != "") = true := by
      simp [bne_iff_ne]
      exact hq
    constructor
    · intro hm
      rw [← hfilter] at hm
      simp [MemoryTool.retrieve_facts, h1, h2, hm]
    · intro hm
      rw [← hfilter] at hm ⊢
      have h3 : (s.memory.facts.filter
          (fun f => MemoryTool.containsCI q f.content)).isEmpty = false := by
        cases h4 : s.memory.facts.filter (fun f => MemoryTool.containsCI q f.content) with
        | nil => exact absurd h4 hm
        | cons a t => rfl
      simp [MemoryTool.retrieve_facts, h1, h2, h3]
  · intro hne hq
    subst hq
    have h1 : s.memory.facts.isEmpty = false := by
      cases h2 : s.memory.facts with
      | nil => exact absurd h2 hne
      | cons a t => rfl
    refine ⟨?_, ?_⟩
    · apply List.filter_eq_self.mpr
      intro a _
      simp [List.nil_infix]
    · simp [MemoryTool.retrieve_facts, h1]

/-- Witness for C7: an empty store, a query with no match, a query with a
match, and the empty query, on concrete stores. -/
theorem c7_retrieve_facts_matching_witness :
    (MemoryTool.retrieve_facts ⟨⟨[], [], [], [], [], 0⟩, none⟩ (some "x")
      = "No facts stored in memory.")
    ∧ (MemoryTool.retrieve_facts
        ⟨⟨[⟨"Hello World", 0⟩], [], [], [], [], 0⟩, none⟩ (some "xyz")
      = "No facts found matching query: \x27xyz\x27")
    ∧ (MemoryTool.retrieve_facts
        ⟨⟨[⟨"Hello World", 0⟩], [], [], [], [], 0⟩, none⟩ (some "WORLD")
      = "Facts related to \x27WORLD\x27:\n\n" ++ MemoryTool.renderEnum ["Hello World"])
    ∧ (MemoryTool.retrieve_facts
        ⟨⟨[⟨"Hello World", 0⟩], [], [], [], [], 0⟩, none⟩ (some "")
      = "All stored facts:\n\n" ++ MemoryTool.renderEnum ["Hello World"]) := by
  refine ⟨(c7_retrieve_facts_matching ⟨⟨[], [], [], [], [], 0⟩, none⟩ "x").1 rfl,
    ((c7_retrieve_facts_matching ⟨⟨[⟨"Hello World", 0⟩], [], [], [], [], 0⟩, none⟩
      "xyz").2.1 (by decide) (by decide)).1 (by decide),
    (((c7_retrieve_facts_matching ⟨⟨[⟨"Hello World", 0⟩], [], [], [], [], 0⟩, none⟩
      "WORLD").2.1 (by decide) (by decide)).2 (by decide)).trans (by decide),
    (((c7_retrieve_facts_matching ⟨⟨[⟨"Hello World", 0⟩], [], [], [], [], 0⟩, none⟩
      "").2.2 (by decide) rfl).2).trans (by decide)⟩
